import Mathlib

/-!
Shallow embedding of the diabetes risk assessment pipeline of `src/app.py`.

Numeric values are modelled as exact rationals.  A field left blank by the
user is `none`; a supplied value is `some v`.  The external classifier is
modelled as an opaque function that may fail (a raised exception becomes
`Except.error`), mirroring the fact that `model.predict_proba` can raise.
-/

set_option linter.unusedVariables false

namespace DiabetesApp

/-- Default values, lines 86 to 94 of `src/app.py`. -/
def DEFAULT_AGE : ℚ := 30

def DEFAULT_WEIGHT : ℚ := 70

def DEFAULT_HEIGHT : ℚ := 1.70

def DEFAULT_PREGNANCIES : ℚ := 0

def DEFAULT_GLUCOSE : ℚ := 100

def DEFAULT_BLOODPRESSURE : ℚ := 80

def DEFAULT_SKINTHICKNESS : ℚ := 20

def DEFAULT_INSULIN : ℚ := 50

def DEFAULT_DIABETESPEDIGREEFUNCTION : ℚ := 0.5

/-- The opaque pre-trained classifier.  `predict_proba` takes a batch of
samples (a list of rows) and either returns one row of class probabilities
per sample or raises (modelled by `Except.error`). -/
structure Model where
  predict_proba : List (List ℚ) → Except String (List (List ℚ))

/-- Lines 97 to 103 of `src/app.py`.  `input_data` reshaped to a single
sample is the one-row batch `[input_data]`.  The Python indexing
`prediction_proba[0][1]` / `[0][0]` raises `IndexError` when out of range;
that is modelled by `Except.error "IndexError"`. -/
def diabetes_prediction_proba (input_data : List ℚ) (model : Option Model) :
    Except String (Option ℚ) :=
  match model with
  | none => Except.ok none
  | some m =>
    match m.predict_proba [input_data] with
    | Except.error e => Except.error e
    | Except.ok prediction_proba =>
      match prediction_proba with
      | [] => Except.error "IndexError"
      | row :: _ =>
        if row.length > 1 then
          match row.get? 1 with
          | some v => Except.ok (some v)
          | none => Except.error "IndexError"
        else
          match row with
          | [] => Except.error "IndexError"
          | v :: _ => Except.ok (some v)

/-- Lines 106 to 109 of `src/app.py`. -/
def calculate_bmi (weight height : ℚ) : ℚ :=
  if height > 0 then weight / height ^ 2 else 0.0

/-- Lines 111 to 119 of `src/app.py`.  `none` is the Python `None`. -/
def get_risk_level : Option ℚ → String
  | none => "N/A"
  | some probability =>
    if probability < 0.20 then "Low"
    else if probability < 0.50 then "Moderate"
    else "Elevated"

/-- The severity channel used by `display_risk_interpretation`. -/
inductive Tone where
  | success
  | warning
  | error
  | info
deriving DecidableEq, Repr

/-- Lines 121 to 132 of `src/app.py`: which message channel the result page
uses for a given risk level (the `probability` argument only feeds the
message text). -/
def display_risk_interpretation (risk_level : String) (probability : Option ℚ) : Tone :=
  if risk_level = "Low" then Tone.success
  else if risk_level = "Moderate" then Tone.warning
  else if risk_level = "Elevated" then Tone.error
  else Tone.info

/-- The nine user-facing input fields of the assessment form; `none` means
the field was left blank (session state holds Python `None`). -/
structure AssessmentInput where
  age : Option ℚ
  pregnancies : Option ℚ
  glucose : Option ℚ
  blood_pressure : Option ℚ
  skin_thickness : Option ℚ
  insulin : Option ℚ
  weight : Option ℚ
  height : Option ℚ
  diabetes_pedigree_function : Option ℚ

/-- Line 264 of `src/app.py`. -/
def final_age (s : AssessmentInput) : ℚ :=
  match s.age with
  | some v => v
  | none => DEFAULT_AGE

/-- Line 265 of `src/app.py`. -/
def final_pregnancies (s : AssessmentInput) : ℚ :=
  match s.pregnancies with
  | some v => v
  | none => DEFAULT_PREGNANCIES

/-- Line 266 of `src/app.py`. -/
def final_glucose (s : AssessmentInput) : ℚ :=
  match s.glucose with
  | some v => v
  | none => DEFAULT_GLUCOSE

/-- Line 267 of `src/app.py`. -/
def final_blood_pressure (s : AssessmentInput) : ℚ :=
  match s.blood_pressure with
  | some v => v
  | none => DEFAULT_BLOODPRESSURE

/-- Line 268 of `src/app.py`. -/
def final_skin_thickness (s : AssessmentInput) : ℚ :=
  match s.skin_thickness with
  | some v => v
  | none => DEFAULT_SKINTHICKNESS

/-- Line 269 of `src/app.py`. -/
def final_insulin (s : AssessmentInput) : ℚ :=
  match s.insulin with
  | some v => v
  | none => DEFAULT_INSULIN

/-- Line 270 of `src/app.py`. -/
def final_weight (s : AssessmentInput) : ℚ :=
  match s.weight with
  | some v => v
  | none => DEFAULT_WEIGHT

/-- Line 271 of `src/app.py`. -/
def final_height (s : AssessmentInput) : ℚ :=
  match s.height with
  | some v => v
  | none => DEFAULT_HEIGHT

/-- Line 272 of `src/app.py`. -/
def final_diabetes_pedigree_function (s : AssessmentInput) : ℚ :=
  match s.diabetes_pedigree_function with
  | some v => v
  | none => DEFAULT_DIABETESPEDIGREEFUNCTION

/-- Line 275 of `src/app.py`: BMI recomputed from the resolved weight and
height for the prediction input. -/
def final_bmi (s : AssessmentInput) : ℚ :=
  calculate_bmi (final_weight s) (final_height s)

/-- Lines 197 to 200 of `src/app.py`: the live-display BMI, computed from
the session-state weight and height with the same blank-to-default
conditionals written inline at that call site. -/
def display_bmi (s : AssessmentInput) : ℚ :=
  calculate_bmi
    (match s.weight with
      | some v => v
      | none => DEFAULT_WEIGHT)
    (match s.height with
      | some v => v
      | none => DEFAULT_HEIGHT)

/-- Line 277 of `src/app.py`: the feature vector handed to the classifier. -/
def input_data (s : AssessmentInput) : List ℚ :=
  [final_pregnancies s, final_glucose s, final_blood_pressure s,
   final_skin_thickness s, final_insulin s, final_bmi s,
   final_diabetes_pedigree_function s, final_age s]

/-- Modelled from the spec: section 4.3 Feature Assembler, the fixed-order
8-element sequence the classifier expects.  This follows the words of the
specification and is compared against `input_data`, which is transcribed
from the source. -/
def assemble (pregnancies glucose blood_pressure skin_thickness insulin bmi dpf age : ℚ) :
    List ℚ :=
  [pregnancies, glucose, blood_pressure, skin_thickness, insulin, bmi, dpf, age]

/-- What the assessment page shows after the button is pressed. -/
inductive PageOutcome where
  | assessed (risk_level : String) (risk_probability : Option ℚ)
  | model_not_loaded
deriving DecidableEq, Repr

/-- Lines 261 to 284 of `src/app.py`: the body of the button handler of
`risk_assessment_page`.  With no classifier loaded it shows the
"Model not loaded" error; otherwise it scores and displays.  The handler
has no exception handling, so an error raised by the classifier call
propagates out unchanged. -/
def risk_assessment_action (loaded_model : Option Model) (s : AssessmentInput) :
    Except String PageOutcome :=
  match loaded_model with
  | some m =>
    match diabetes_prediction_proba (input_data s) (some m) with
    | Except.error e => Except.error e
    | Except.ok risk_probability =>
      Except.ok (PageOutcome.assessed (get_risk_level risk_probability) risk_probability)
  | none => Except.ok PageOutcome.model_not_loaded

/-- A form with every field left blank. -/
def blankInput : AssessmentInput :=
  ⟨none, none, none, none, none, none, none, none, none⟩

/-- A form where pregnancies, glucose and insulin are explicitly zero. -/
def zeroInput : AssessmentInput :=
  ⟨none, some 0, some 0, none, none, some 0, none, none, none⟩

/-- A classifier returning the two-class probability row [0.3, 0.7]. -/
def twoColModel : Model :=
  ⟨fun _ => Except.ok [[0.3, 0.7]]⟩

/-- A classifier whose call always raises. -/
def raisingModel : Model :=
  ⟨fun _ => Except.error "boom"⟩

/-- Claim C1: for every probability supplied to `get_risk_level`, a value
below 0.20 yields "Low", a value in [0.20, 0.50) yields "Moderate", and a
value at or above 0.50 yields "Elevated"; the boundary values 0.20 and 0.50
map to the higher bucket. -/
theorem claim_C1_bucket_thresholds (p : ℚ) :
    (p < 0.20 → get_risk_level (some p) = "Low") ∧
    (0.20 ≤ p → p < 0.50 → get_risk_level (some p) = "Moderate") ∧
    (0.50 ≤ p → get_risk_level (some p) = "Elevated") ∧
    get_risk_level (some 0.20) = "Moderate" ∧
    get_risk_level (some 0.50) = "Elevated" := by
  refine ⟨?_, ?_, ?_, by norm_num [get_risk_level], by norm_num [get_risk_level]⟩
  · intro h
    simp only [get_risk_level, if_pos h]
  · intro h1 h2
    simp only [get_risk_level, if_neg (not_lt.mpr h1), if_pos h2]
  · intro h
    have h1 : ¬ p < (0.20 : ℚ) := not_lt.mpr (le_trans (by norm_num) h)
    simp only [get_risk_level, if_neg h1, if_neg (not_lt.mpr h)]

/-- Claim C1 witness at the concrete probabilities 0.1, 0.3 and 0.9. -/
theorem claim_C1_bucket_thresholds_witness :
    get_risk_level (some 0.1) = "Low" ∧
    get_risk_level (some 0.3) = "Moderate" ∧
    get_risk_level (some 0.9) = "Elevated" :=
  ⟨(claim_C1_bucket_thresholds 0.1).1 (by norm_num),
   (claim_C1_bucket_thresholds 0.3).2.1 (by norm_num) (by norm_num),
   (claim_C1_bucket_thresholds 0.9).2.2.1 (by norm_num)⟩

/-- Claim C2: `calculate_bmi weight height` returns `weight / height ^ 2`
whenever `height > 0` and returns exactly 0.0 whenever `height ≤ 0`; being a
total function of its arguments, it never fails. -/
theorem claim_C2_bmi_formula (weight height : ℚ) :
    (height > 0 → calculate_bmi weight height = weight / height ^ 2) ∧
    (height ≤ 0 → calculate_bmi weight height = 0.0) := by
  constructor
  · intro h
    simp only [calculate_bmi, if_pos h]
  · intro h
    simp only [calculate_bmi, if_neg (not_lt.mpr h)]

/-- Claim C2 witness at weight 70 with heights 1.7 and 0. -/
theorem claim_C2_bmi_formula_witness :
    calculate_bmi 70 1.7 = 70 / (1.7 : ℚ) ^ 2 ∧ calculate_bmi 70 0 = 0.0 :=
  ⟨(claim_C2_bmi_formula 70 1.7).1 (by norm_num),
   (claim_C2_bmi_formula 70 0).2 le_rfl⟩

/-- Claim C3: for every combination of resolved inputs, the feature vector
handed to the classifier is exactly the 8-element sequence
[pregnancies, glucose, blood_pressure, skin_thickness, insulin, bmi,
diabetes_pedigree_function, age], in that order: the vector built on line
277 of the source coincides with the Feature Assembler of the spec applied
to the resolved fields, and it has length 8. -/
theorem claim_C3_feature_vector_order (s : AssessmentInput) :
    input_data s =
      assemble (final_pregnancies s) (final_glucose s) (final_blood_pressure s)
        (final_skin_thickness s) (final_insulin s) (final_bmi s)
        (final_diabetes_pedigree_function s) (final_age s) ∧
    (input_data s).length = 8 :=
  ⟨rfl, rfl⟩

/-- Claim C4: each of the 9 input fields resolves to its documented default
when absent (age 30, weight 70, height 1.70, pregnancies 0, glucose 100,
blood_pressure 80, skin_thickness 20, insulin 50,
diabetes_pedigree_function 0.5), and each resolved value depends only on
its own field, so resolving one field leaves every other field unchanged. -/
theorem claim_C4_defaults_and_independence (s t : AssessmentInput) :
    (s.age = none → final_age s = DEFAULT_AGE) ∧
    (s.pregnancies = none → final_pregnancies s = DEFAULT_PREGNANCIES) ∧
    (s.glucose = none → final_glucose s = DEFAULT_GLUCOSE) ∧
    (s.blood_pressure = none → final_blood_pressure s = DEFAULT_BLOODPRESSURE) ∧
    (s.skin_thickness = none → final_skin_thickness s = DEFAULT_SKINTHICKNESS) ∧
    (s.insulin = none → final_insulin s = DEFAULT_INSULIN) ∧
    (s.weight = none → final_weight s = DEFAULT_WEIGHT) ∧
    (s.height = none → final_height s = DEFAULT_HEIGHT) ∧
    (s.diabetes_pedigree_function = none →
      final_diabetes_pedigree_function s = DEFAULT_DIABETESPEDIGREEFUNCTION) ∧
    (s.age = t.age → final_age s = final_age t) ∧
    (s.pregnancies = t.pregnancies → final_pregnancies s = final_pregnancies t) ∧
    (s.glucose = t.glucose → final_glucose s = final_glucose t) ∧
    (s.blood_pressure = t.blood_pressure →
      final_blood_pressure s = final_blood_pressure t) ∧
    (s.skin_thickness = t.skin_thickness →
      final_skin_thickness s = final_skin_thickness t) ∧
    (s.insulin = t.insulin → final_insulin s = final_insulin t) ∧
    (s.weight = t.weight → final_weight s = final_weight t) ∧
    (s.height = t.height → final_height s = final_height t) ∧
    (s.diabetes_pedigree_function = t.diabetes_pedigree_function →
      final_diabetes_pedigree_function s = final_diabetes_pedigree_function t) := by
  refine ⟨?_, ?_, ?_, ?_, ?_, ?_, ?_, ?_, ?_, ?_, ?_, ?_, ?_, ?_, ?_, ?_, ?_, ?_⟩ <;>
    intro h <;>
    simp only [final_age, final_pregnancies, final_glucose, final_blood_pressure,
      final_skin_thickness, final_insulin, final_weight, final_height,
      final_diabetes_pedigree_function, h]

/-- Claim C4 witness: on the all-blank form every field resolves to its
documented default, and equal stored ages resolve equally. -/
theorem claim_C4_defaults_and_independence_witness :
    final_age blankInput = DEFAULT_AGE ∧
    final_pregnancies blankInput = DEFAULT_PREGNANCIES ∧
    final_glucose blankInput = DEFAULT_GLUCOSE ∧
    final_blood_pressure blankInput = DEFAULT_BLOODPRESSURE ∧
    final_skin_thickness blankInput = DEFAULT_SKINTHICKNESS ∧
    final_insulin blankInput = DEFAULT_INSULIN ∧
    final_weight blankInput = DEFAULT_WEIGHT ∧
    final_height blankInput = DEFAULT_HEIGHT ∧
    final_diabetes_pedigree_function blankInput = DEFAULT_DIABETESPEDIGREEFUNCTION ∧
    final_age blankInput = final_age blankInput := by
  have h := claim_C4_defaults_and_independence blankInput blankInput
  exact ⟨h.1 rfl, h.2.1 rfl, h.2.2.1 rfl, h.2.2.2.1 rfl, h.2.2.2.2.1 rfl,
    h.2.2.2.2.2.1 rfl, h.2.2.2.2.2.2.1 rfl, h.2.2.2.2.2.2.2.1 rfl,
    h.2.2.2.2.2.2.2.2.1 rfl, h.2.2.2.2.2.2.2.2.2.1 rfl⟩

/-- Claim C5: the bucketer is total and partitioning: the absent probability
(Python None) maps to "N/A", and every probability in [0, 1] maps to exactly
one of "Low", "Moderate", "Elevated". -/
theorem claim_C5_bucket_total_partition :
    get_risk_level none = "N/A" ∧
    ∀ p : ℚ, 0 ≤ p → p ≤ 1 →
      ∃! l : String,
        (l = "Low" ∨ l = "Moderate" ∨ l = "Elevated") ∧
        get_risk_level (some p) = l := by
  constructor
  · rfl
  · intro p hp0 hp1
    refine ⟨get_risk_level (some p), ⟨?_, rfl⟩, ?_⟩
    · simp only [get_risk_level]
      split_ifs <;> simp
    · rintro l ⟨-, hl⟩
      exact hl.symm

/-- Claim C5 witness at the concrete probability 0.3. -/
theorem claim_C5_bucket_total_partition_witness :
    ∃! l : String,
      (l = "Low" ∨ l = "Moderate" ∨ l = "Elevated") ∧
      get_risk_level (some 0.3) = l :=
  claim_C5_bucket_total_partition.2 0.3 (by norm_num) (by norm_num)

/-- Claim C6: with no classifier loaded the adapter returns the absent
probability (scoring skipped) and raises nothing; with a classifier whose
call on the single-sample batch [v] succeeds with first row `row` (and the
row nonempty), the adapter returns the entry at column index 1 when the row
has more than one column, and the single entry of the row otherwise. -/
theorem claim_C6_adapter_behaviour (v : List ℚ) :
    diabetes_prediction_proba v none = Except.ok none ∧
    ∀ (m : Model) (row : List ℚ) (rest : List (List ℚ)),
      m.predict_proba [v] = Except.ok (row :: rest) → row ≠ [] →
      diabetes_prediction_proba v (some m) =
        Except.ok (some (if row.length > 1 then row.getD 1 0 else row.getD 0 0)) := by
  constructor
  · rfl
  · intro m row rest hcall hrow
    match row, hrow with
    | a :: tail, _ =>
      match tail with
      | [] =>
        simp only [diabetes_prediction_proba, hcall, List.length_cons,
          List.length_nil, gt_iff_lt]
        norm_num
      | b :: tail2 =>
        simp only [diabetes_prediction_proba, hcall, List.length_cons, gt_iff_lt,
          List.get?_eq_getElem?, List.getD]
        norm_num

/-- Claim C6 witness: with no model the adapter yields the absent
probability, and on a concrete two-column classifier it returns the
positive-class column. -/
theorem claim_C6_adapter_behaviour_witness :
    diabetes_prediction_proba (input_data blankInput) none = Except.ok none ∧
    diabetes_prediction_proba (input_data blankInput) (some twoColModel) =
      Except.ok (some 0.7) := by
  constructor
  · exact (claim_C6_adapter_behaviour (input_data blankInput)).1
  · have h := (claim_C6_adapter_behaviour (input_data blankInput)).2 twoColModel
      [0.3, 0.7] [] rfl (by simp)
    simpa using h

/-- Claim C7 counterexample: with a classifier whose call raises, the
button handler of the assessment page does not catch the error and does not
display a failure message; the error propagates out of the page unchanged,
so the claim that the page catches it and displays a generic failure
message is false at this concrete input. -/
theorem claim_C7_counterexample :
    Model.predict_proba raisingModel [input_data blankInput] = Except.error "boom" ∧
    risk_assessment_action (some raisingModel) blankInput = Except.error "boom" ∧
    (risk_assessment_action (some raisingModel) blankInput).isOk = false :=
  ⟨rfl, rfl, rfl⟩

/-- Claim C7 (amended): an exception raised by the external classifier call
propagates out of `diabetes_prediction_proba` unchanged (it is not
swallowed), and it also propagates out of the assessment page unchanged,
because the button handler has no exception handler; the page handles only
the model-not-loaded case. -/
theorem claim_C7_error_propagation (m : Model) (s : AssessmentInput) (e : String)
    (h : m.predict_proba [input_data s] = Except.error e) :
    diabetes_prediction_proba (input_data s) (some m) = Except.error e ∧
    risk_assessment_action (some m) s = Except.error e := by
  have h1 : diabetes_prediction_proba (input_data s) (some m) = Except.error e := by
    simp only [diabetes_prediction_proba, h]
  refine ⟨h1, ?_⟩
  simp only [risk_assessment_action, h1]

/-- Claim C7 (amended) witness on the concrete always-raising classifier. -/
theorem claim_C7_error_propagation_witness :
    diabetes_prediction_proba (input_data blankInput) (some raisingModel) =
      Except.error "boom" ∧
    risk_assessment_action (some raisingModel) blankInput = Except.error "boom" :=
  claim_C7_error_propagation raisingModel blankInput "boom" rfl

/-- Claim C8: with the classifier artifact missing (no model loaded), the
assess action completes without an exception showing the model-not-loaded
error state, the adapter yields no probability, the bucketer maps the
absent probability to "N/A" rather than any of the three risk levels, and
the presenter shows the informational assessment-unavailable message. -/
theorem claim_C8_missing_artifact (s : AssessmentInput) :
    risk_assessment_action none s = Except.ok PageOutcome.model_not_loaded ∧
    diabetes_prediction_proba (input_data s) none = Except.ok none ∧
    get_risk_level none = "N/A" ∧
    get_risk_level none ≠ "Low" ∧
    get_risk_level none ≠ "Moderate" ∧
    get_risk_level none ≠ "Elevated" ∧
    display_risk_interpretation "N/A" none = Tone.info := by
  refine ⟨rfl, rfl, rfl, ?_, ?_, ?_, rfl⟩ <;> decide

/-- Claim C9: the live-display BMI call site and the final-scoring BMI call
site are the same pure function applied to the same resolution of weight
and height, so they agree on every form state, and `calculate_bmi` is
deterministic: equal inputs give equal outputs. -/
theorem claim_C9_bmi_consistency (s : AssessmentInput) (w h w2 h2 : ℚ) :
    display_bmi s = final_bmi s ∧
    (w = w2 → h = h2 → calculate_bmi w h = calculate_bmi w2 h2) := by
  refine ⟨rfl, ?_⟩
  intro hw hh
  rw [hw, hh]

/-- Claim C9 witness on the all-blank form and the concrete input pair
(70, 1.7). -/
theorem claim_C9_bmi_consistency_witness :
    display_bmi blankInput = final_bmi blankInput ∧
    calculate_bmi 70 1.7 = calculate_bmi 70 1.7 :=
  ⟨(claim_C9_bmi_consistency blankInput 70 1.7 70 1.7).1,
   (claim_C9_bmi_consistency blankInput 70 1.7 70 1.7).2 rfl rfl⟩

/-- Claim C10: a field counts as absent only when its stored value is None;
every user-supplied value, including 0, reaches its slot of the feature
vector unchanged (pregnancies at index 0, glucose at 1, blood_pressure at 2,
skin_thickness at 3, insulin at 4, diabetes_pedigree_function at 6, age at
7), and supplied weight and height reach the BMI computation unchanged. -/
theorem claim_C10_zero_not_replaced (s : AssessmentInput) (v : ℚ) :
    (s.pregnancies = some v → (input_data s).getD 0 0 = v) ∧
    (s.glucose = some v → (input_data s).getD 1 0 = v) ∧
    (s.blood_pressure = some v → (input_data s).getD 2 0 = v) ∧
    (s.skin_thickness = some v → (input_data s).getD 3 0 = v) ∧
    (s.insulin = some v → (input_data s).getD 4 0 = v) ∧
    (s.diabetes_pedigree_function = some v → (input_data s).getD 6 0 = v) ∧
    (s.age = some v → (input_data s).getD 7 0 = v) ∧
    (s.weight = some v → final_weight s = v) ∧
    (s.height = some v → final_height s = v) := by
  refine ⟨?_, ?_, ?_, ?_, ?_, ?_, ?_, ?_, ?_⟩ <;>
    intro h <;>
    simp only [input_data, final_age, final_pregnancies, final_glucose,
      final_blood_pressure, final_skin_thickness, final_insulin, final_weight,
      final_height, final_diabetes_pedigree_function, h, List.getD] <;>
    rfl

/-- Claim C10 witness: explicitly supplied zeros for pregnancies, glucose
and insulin stay 0 in the feature vector instead of being replaced by the
defaults 0, 100 and 50. -/
theorem claim_C10_zero_not_replaced_witness :
    (input_data zeroInput).getD 0 0 = 0 ∧
    (input_data zeroInput).getD 1 0 = 0 ∧
    (input_data zeroInput).getD 4 0 = 0 := by
  have h := claim_C10_zero_not_replaced zeroInput 0
  exact ⟨h.1 rfl, h.2.1 rfl, h.2.2.2.2.1 rfl⟩

end DiabetesApp
